import Mathlib

/-!
Shallow embedding of the `nbchan` crate: a oneshot channel built on a single
shared atomic pointer cell (`src/oneshot.rs`), a lock-free FIFO queue
(`src/queue.rs`), and the MPSC channel wrappers (`src/mpsc.rs`).

The claims under verification are about sequential orderings of the channel
operations, so the concurrent code is embedded as a sequential state machine:
each Rust operation becomes a Lean function on an explicit state record.
Operations that dereference raw pointers return `Option`: `none` models
undefined behaviour (a swap, load or free performed through a handle pointer
that has already been zeroed, or on a cell that has already been freed).
-/

namespace Nbchan

/-- Error type of a failed send: the item is handed back
(`std::sync::mpsc::SendError`). -/
structure SendError (α : Type) : Type where
  val : α
deriving DecidableEq, Repr

/-- Error type of `try_recv` (`std::sync::mpsc::TryRecvError`). -/
inductive TryRecvError : Type where
  | Empty
  | Disconnected
deriving DecidableEq, Repr

/-- Error type of the bounded `try_send` (`std::sync::mpsc::TrySendError`). -/
inductive TrySendError (α : Type) : Type where
  | Full (v : α)
  | Disconnected (v : α)
deriving DecidableEq, Repr

namespace Oneshot

/-- The three logical states of the oneshot shared cell `S`
(`oneshot.rs`: null = empty, the static sentinel = dropped,
any other pointer = a heap payload). -/
inductive OCell (α : Type) : Type where
  | empty
  | dropped
  | full (v : α)
deriving DecidableEq, Repr

/-- Sequential state of one oneshot channel.

`cell` is the contents of the shared `AtomicPtr` cell `S`; `none` means the
heap allocation of `S` itself has been freed (`SharedBox::release`).
`txPtr` / `rxPtr` are whether the sender's / receiver's `SharedBox` raw
pointer is still non-null (`SharedBox::is_available`).
`txFrees` / `rxFrees` count how many times each handle freed `S`
(called `release` on a non-null pointer). -/
structure OState (α : Type) : Type where
  cell : Option (OCell α)
  txPtr : Bool
  rxPtr : Bool
  txFrees : Nat
  rxFrees : Nat
deriving DecidableEq, Repr

/-- `oneshot::channel()`: a freshly allocated cell holding null (empty),
both handles pointing at it. -/
def channel (α : Type) : OState α :=
  { cell := some OCell.empty, txPtr := true, rxPtr := true
    txFrees := 0, rxFrees := 0 }

/-- `Sender::send(self, t)` (`oneshot.rs` lines 94-108).
Swap `S ← Full t` observing `old`.  `old = Empty`: abandon the pointer and
return `Ok(())`.  Otherwise (`old = Dropped` by construction): reload `S`
(it now holds the payload just swapped in), take the payload back, free `S`,
return `Err(SendError(t))`.  `none` models a swap through a null handle
pointer or on a freed cell. -/
def send (s : OState α) (t : α) : Option (Except (SendError α) Unit × OState α) :=
  if s.txPtr then
    match s.cell with
    | none => none
    | some old =>
      match old with
      | OCell.empty =>
        some (Except.ok (), { s with cell := some (OCell.full t), txPtr := false })
      | _ =>
        some (Except.error ⟨t⟩,
          { s with cell := none, txPtr := false, txFrees := s.txFrees + 1 })
  else
    none

/-- `Receiver::try_recv(&mut self)` (`oneshot.rs` lines 129-145).
A receiver whose pointer is already null answers `Disconnected` without
touching `S`.  Otherwise load `S`: empty → `Empty`; dropped → free `S`,
`Disconnected`; full `v` → take the payload, free `S`, `Ok v`. -/
def tryRecv (s : OState α) : Option (Except TryRecvError α × OState α) :=
  if s.rxPtr then
    match s.cell with
    | none => none
    | some OCell.empty => some (Except.error TryRecvError.Empty, s)
    | some OCell.dropped =>
      some (Except.error TryRecvError.Disconnected,
        { s with cell := none, rxPtr := false, rxFrees := s.rxFrees + 1 })
    | some (OCell.full v) =>
      some (Except.ok v,
        { s with cell := none, rxPtr := false, rxFrees := s.rxFrees + 1 })
  else
    some (Except.error TryRecvError.Disconnected, s)

/-- `impl Drop for Sender` (`oneshot.rs` lines 110-121).
Only if the pointer is still non-null: swap `S ← Dropped`; if the old value
was already `Dropped` the receiver left first, so free `S`; otherwise leave
`S` for the receiver. -/
def senderDrop (s : OState α) : Option (OState α) :=
  if s.txPtr then
    match s.cell with
    | none => none
    | some old =>
      match old with
      | OCell.dropped =>
        some { s with cell := none, txPtr := false, txFrees := s.txFrees + 1 }
      | _ => some { s with cell := some OCell.dropped }
  else
    some s

/-- `impl Drop for Receiver` (`oneshot.rs` lines 147-161).
Only if the pointer is still non-null: swap `S ← Dropped` observing `old`;
`old = Empty` → the sender will free `S`; `old = Dropped` → free `S`;
`old = Full v` → drop the orphaned payload and free `S`. -/
def receiverDrop (s : OState α) : Option (OState α) :=
  if s.rxPtr then
    match s.cell with
    | none => none
    | some old =>
      match old with
      | OCell.empty => some { s with cell := some OCell.dropped }
      | OCell.dropped =>
        some { s with cell := none, rxPtr := false, rxFrees := s.rxFrees + 1 }
      | OCell.full _ =>
        some { s with cell := none, rxPtr := false, rxFrees := s.rxFrees + 1 }
  else
    some s

/-- The four oneshot events of claim C1. -/
inductive OEvent (α : Type) : Type where
  | send (v : α)
  | tryRecv
  | senderDrop
  | receiverDrop
deriving DecidableEq, Repr

/-- One sequential step: run one event, discarding the operation's return
value and keeping the state (`none` = undefined behaviour). -/
def step (s : OState α) : OEvent α → Option (OState α)
  | OEvent.send v => (send s v).map Prod.snd
  | OEvent.tryRecv => (tryRecv s).map Prod.snd
  | OEvent.senderDrop => senderDrop s
  | OEvent.receiverDrop => receiverDrop s

/-- Run a list of events from a state. -/
def run (s : OState α) : List (OEvent α) → Option (OState α)
  | [] => some s
  | e :: es =>
    match step s e with
    | none => none
    | some s' => run s' es

/-- The sequential orderings of the four events `send`, `try_recv`,
`sender drop`, `receiver drop` that a Rust program can produce: `send`
consumes the sender, so the sender's implicit drop comes after `send`, and
`try_recv` needs the receiver, so it comes before the receiver's drop. -/
def orderings (v : α) : List (List (OEvent α)) :=
  [ [OEvent.send v, OEvent.senderDrop, OEvent.tryRecv, OEvent.receiverDrop],
    [OEvent.send v, OEvent.tryRecv, OEvent.senderDrop, OEvent.receiverDrop],
    [OEvent.send v, OEvent.tryRecv, OEvent.receiverDrop, OEvent.senderDrop],
    [OEvent.tryRecv, OEvent.send v, OEvent.senderDrop, OEvent.receiverDrop],
    [OEvent.tryRecv, OEvent.send v, OEvent.receiverDrop, OEvent.senderDrop],
    [OEvent.tryRecv, OEvent.receiverDrop, OEvent.send v, OEvent.senderDrop] ]

/-- Iterated `try_recv`: the result of the `(n+1)`-th call starting at `s`,
threading the state through the earlier calls. -/
def tryRecvN : Nat → OState α → Option (Except TryRecvError α × OState α)
  | 0, s => tryRecv s
  | n + 1, s =>
    match tryRecv s with
    | none => none
    | some (_, s') => tryRecvN n s'

/-- A receiver whose pointer has been zeroed answers `Disconnected` and
leaves the state unchanged. -/
theorem tryRecv_of_not_rxPtr (s : OState α) (h : s.rxPtr = false) :
    tryRecv s = some (Except.error TryRecvError.Disconnected, s) := by
  simp [tryRecv, h]

/-- Once the receiver pointer is zeroed, every later `try_recv` answers
`Disconnected`. -/
theorem tryRecvN_of_not_rxPtr (n : Nat) (s : OState α) (h : s.rxPtr = false) :
    tryRecvN n s = some (Except.error TryRecvError.Disconnected, s) := by
  induction n with
  | zero => exact tryRecv_of_not_rxPtr s h
  | succ n ih => simp [tryRecvN, tryRecv_of_not_rxPtr s h, ih]

end Oneshot

/-- Claim C1: in every sequential ordering of the four oneshot events
(send, try_recv, sender drop, receiver drop) on one channel, the run is free
of undefined behaviour (no handle swaps, loads or frees `S` after releasing
or abandoning its pointer — any such access would make `run` return `none`),
and exactly one of the two handles frees the shared cell `S`. -/
theorem claim_C1_oneshot_exactly_one_free (α : Type) (v : α)
    (tr : List (Oneshot.OEvent α)) (htr : tr ∈ Oneshot.orderings v) :
    ∃ s, Oneshot.run (Oneshot.channel α) tr = some s ∧
      ((s.txFrees = 1 ∧ s.rxFrees = 0) ∨ (s.txFrees = 0 ∧ s.rxFrees = 1)) := by
  simp only [Oneshot.orderings, List.mem_cons, List.not_mem_nil, or_false] at htr
  rcases htr with h | h | h | h | h | h <;> subst h <;>
    first
      | exact ⟨_, rfl, Or.inr ⟨rfl, rfl⟩⟩
      | exact ⟨_, rfl, Or.inl ⟨rfl, rfl⟩⟩

/-- Witness for C1 at a concrete ordering and value. -/
theorem claim_C1_oneshot_exactly_one_free_witness :
    ∃ s, Oneshot.run (Oneshot.channel Nat)
        [Oneshot.OEvent.send 5, Oneshot.OEvent.senderDrop,
         Oneshot.OEvent.tryRecv, Oneshot.OEvent.receiverDrop] = some s ∧
      ((s.txFrees = 1 ∧ s.rxFrees = 0) ∨ (s.txFrees = 0 ∧ s.rxFrees = 1)) :=
  claim_C1_oneshot_exactly_one_free Nat 5 _ (by decide)

/-- Claim C2: after a successful oneshot `send v` (one that returned
`Ok(())`), the next `try_recv` on the still-live receiver returns `Ok v`,
and every `try_recv` after that on the same receiver returns
`Err(TryRecvError::Disconnected)`. -/
theorem claim_C2_oneshot_one_message (α : Type) (s : Oneshot.OState α) (v : α)
    (s1 : Oneshot.OState α)
    (hsend : Oneshot.send s v = some (Except.ok (), s1))
    (hlive : s.rxPtr = true) :
    ∃ s2, Oneshot.tryRecv s1 = some (Except.ok v, s2) ∧
      ∀ n, Oneshot.tryRecvN n s2 =
        some (Except.error TryRecvError.Disconnected, s2) := by
  unfold Oneshot.send at hsend
  by_cases htx : s.txPtr
  · rw [if_pos htx] at hsend
    match hc : s.cell with
    | none => rw [hc] at hsend; exact absurd hsend (by simp)
    | some Oneshot.OCell.empty =>
      rw [hc] at hsend
      have hs1 : s1 = { s with cell := some (Oneshot.OCell.full v), txPtr := false } := by
        have := (Option.some.injEq _ _).mp hsend
        exact (Prod.mk.injEq _ _ _ _).mp this |>.2.symm
      subst hs1
      refine ⟨{ cell := none, txPtr := false, rxPtr := false
                txFrees := s.txFrees, rxFrees := s.rxFrees + 1 }, ?_, ?_⟩
      · simp [Oneshot.tryRecv, hlive]
      · intro n
        exact Oneshot.tryRecvN_of_not_rxPtr n _ rfl
    | some Oneshot.OCell.dropped => rw [hc] at hsend; exact absurd hsend (by simp)
    | some (Oneshot.OCell.full w) => rw [hc] at hsend; exact absurd hsend (by simp)
  · rw [if_neg htx] at hsend
    exact absurd hsend (by simp)

/-- Witness for C2 at a concrete channel state and value. -/
theorem claim_C2_oneshot_one_message_witness :
    ∃ s2, Oneshot.tryRecv
        { cell := some (Oneshot.OCell.full 7), txPtr := false, rxPtr := true
          txFrees := 0, rxFrees := 0 } = some (Except.ok 7, s2) ∧
      ∀ n, Oneshot.tryRecvN n s2 =
        some (Except.error TryRecvError.Disconnected, s2) :=
  claim_C2_oneshot_one_message Nat (Oneshot.channel Nat) 7 _ rfl rfl

/-- Claim C6: if the oneshot receiver is dropped before the sender calls
`send v`, then the send returns `Err(SendError(v))` carrying the identical
item, and the shared cell is freed by the sender (not the receiver). -/
theorem claim_C6_oneshot_send_after_receiver_drop (α : Type) (v : α) :
    ∃ s1 s2, Oneshot.receiverDrop (Oneshot.channel α) = some s1 ∧
      Oneshot.send s1 v = some (Except.error ⟨v⟩, s2) ∧
      s2.txFrees = 1 ∧ s2.rxFrees = 0 :=
  ⟨_, _, rfl, rfl, rfl, rfl⟩

namespace Queue

/-- Sequential state of the lock-free FIFO queue of `queue.rs`, seen through
its single-threaded semantics: `connected` is whether the shared tail cursor
is non-null (the consumer has not been dropped), and `items` is the sequence
of completed nodes between the head cursor and the tail cursor, oldest
first. -/
structure QState (α : Type) : Type where
  connected : Bool
  items : List α
deriving DecidableEq, Repr

/-- `queue::fifo()`: head and tail both point at one fresh empty next-ref
cell, so the queue starts connected and empty. -/
def fifo (α : Type) : QState α :=
  { connected := true, items := [] }

/-- `QueueTail::enqueue(item)` (`queue.rs` lines 21-31).  `replace_tail`
returns `None` exactly when the tail cursor is null (consumer disconnected):
then the fresh cell is freed and the item handed back.  Otherwise the won
slot is filled with a node holding the item, appending it to the queue. -/
def enqueue (q : QState α) (item : α) : Option α × QState α :=
  if q.connected then
    (none, { q with items := q.items ++ [item] })
  else
    (some item, q)

/-- `QueueHead::dequeue()` (`queue.rs` lines 75-84): take the node out of
the cell under the head cursor if one is there, advancing the head. -/
def dequeue (q : QState α) : Option α × QState α :=
  match q.items with
  | [] => (none, q)
  | item :: rest => (some item, { q with items := rest })

/-- `impl Drop for QueueHead` (`queue.rs` lines 97-105): swap the tail
cursor to null, drain the remaining completed nodes, free the last cell. -/
def headDrop (_q : QState α) : QState α :=
  { connected := false, items := [] }

/-- Queue events of the FIFO-order claim C7. -/
inductive QEvent (α : Type) : Type where
  | enq (v : α)
  | deq
deriving DecidableEq, Repr

/-- The items an event trace hands to `enqueue` that the queue accepts
(enqueue returned `None`), in order. -/
def enqAccepted (q : QState α) : List (QEvent α) → List α
  | [] => []
  | QEvent.enq v :: es =>
    match enqueue q v with
    | (none, q') => v :: enqAccepted q' es
    | (some _, q') => enqAccepted q' es
  | QEvent.deq :: es => enqAccepted (dequeue q).2 es

/-- The items an event trace successfully dequeues, in order. -/
def deqGot (q : QState α) : List (QEvent α) → List α
  | [] => []
  | QEvent.enq v :: es => deqGot (enqueue q v).2 es
  | QEvent.deq :: es =>
    match dequeue q with
    | (some v, q') => v :: deqGot q' es
    | (none, q') => deqGot q' es

end Queue

namespace Mpsc

/-- One more than the largest `usize` value: `AtomicUsize` arithmetic in
`mpsc.rs` wraps modulo this (64-bit platform). -/
def usizeSize : Nat := 2 ^ 64

/-- Wrapping `fetch_sub(1)` result on the shared `queue_len` counter. -/
def fetchSub1 (n : Nat) : Nat :=
  (n + (usizeSize - 1)) % usizeSize

/-- Sequential state of one MPSC channel (`mpsc.rs`): the queue, the number
of live sender handles (each holds one `Arc` clone of the tail cursor), and
the shared `queue_len` counter.  The receiver is alive and holds its own
`Arc` clone of the tail cursor. -/
structure Chan (α : Type) : Type where
  queue : Queue.QState α
  tails : Nat
  queueLen : Nat
deriving DecidableEq, Repr

/-- `mpsc::channel()` / `mpsc::sync_channel(bound)`: fresh queue, one
sender, `queue_len = 0`. -/
def channel (α : Type) : Chan α :=
  { queue := Queue.fifo α, tails := 1, queueLen := 0 }

/-- `Arc::strong_count` of the tail cursor: one clone per live sender plus
the receiver's own clone. -/
def strongCount (c : Chan α) : Nat :=
  c.tails + 1

/-- `QueueHead::is_tail_alive()` (`queue.rs` lines 87-89). -/
def is_tail_alive (c : Chan α) : Bool :=
  decide (strongCount c > 1)

/-- `Sender::send(&self, item)` (`mpsc.rs` lines 48-54): forward to
`QueueTail::enqueue`; an item handed back becomes `Err(SendError(item))`. -/
def send (c : Chan α) (item : α) : Except (SendError α) Unit × Chan α :=
  match Queue.enqueue c.queue item with
  | (some item', q') => (Except.error ⟨item'⟩, { c with queue := q' })
  | (none, q') => (Except.ok (), { c with queue := q' })

/-- `Receiver::try_recv(&self)` (`mpsc.rs` lines 120-130): dequeue; on an
item, `fetch_sub(1)` the shared `queue_len` and return it; on an empty
dequeue answer `Empty` while `is_tail_alive`, else `Disconnected`. -/
def tryRecv (c : Chan α) : Except TryRecvError α × Chan α :=
  match Queue.dequeue c.queue with
  | (some item, q') =>
    (Except.ok item, { c with queue := q', queueLen := fetchSub1 c.queueLen })
  | (none, _) =>
    if is_tail_alive c then
      (Except.error TryRecvError.Empty, c)
    else
      (Except.error TryRecvError.Disconnected, c)

/-- `SyncSender::try_send(&self, item)` (`mpsc.rs` lines 81-92):
`fetch_add(1)` on `queue_len` observing the prior value `len`; if
`len >= queue_capacity`, `fetch_sub(1)` back and answer `Full(item)`;
otherwise delegate to the unbounded `send`, rolling the counter back with
`fetch_sub(1)` when that reports the receiver gone. -/
def trySend (cap : Nat) (c : Chan α) (item : α) : Except (TrySendError α) Unit × Chan α :=
  let len := c.queueLen
  let c1 : Chan α := { c with queueLen := (len + 1) % usizeSize }
  if len ≥ cap then
    (Except.error (TrySendError.Full item), { c1 with queueLen := fetchSub1 c1.queueLen })
  else
    match send c1 item with
    | (Except.error e, c2) =>
      (Except.error (TrySendError.Disconnected e.val),
        { c2 with queueLen := fetchSub1 c2.queueLen })
    | (Except.ok _, c2) => (Except.ok (), c2)

/-- The operations a program can run on the unbounded channel while the
receiver stays alive.  Sender operations require a live sender handle. -/
inductive MEvent (α : Type) : Type where
  | send (v : α)
  | cloneSender
  | dropSender
  | tryRecv
deriving DecidableEq, Repr

/-- Observable outcome of one channel operation. -/
inductive MOut (α : Type) : Type where
  | sendOk
  | sendErr (v : α)
  | cloned
  | droppedSender
  | recvOk (v : α)
  | recvEmpty
  | recvDisconnected
  | skip
deriving DecidableEq, Repr

/-- One sequential step of the unbounded channel.  A sender event with no
live sender handle cannot occur in a real program and is a `skip`. -/
def mStep (c : Chan α) : MEvent α → MOut α × Chan α
  | MEvent.send v =>
    if c.tails > 0 then
      match send c v with
      | (Except.ok _, c') => (MOut.sendOk, c')
      | (Except.error e, c') => (MOut.sendErr e.val, c')
    else (MOut.skip, c)
  | MEvent.cloneSender =>
    if c.tails > 0 then (MOut.cloned, { c with tails := c.tails + 1 })
    else (MOut.skip, c)
  | MEvent.dropSender =>
    if c.tails > 0 then (MOut.droppedSender, { c with tails := c.tails - 1 })
    else (MOut.skip, c)
  | MEvent.tryRecv =>
    match tryRecv c with
    | (Except.ok v, c') => (MOut.recvOk v, c')
    | (Except.error TryRecvError.Empty, c') => (MOut.recvEmpty, c')
    | (Except.error TryRecvError.Disconnected, c') => (MOut.recvDisconnected, c')

/-- Run an event trace, returning the final state. -/
def mRun (c : Chan α) : List (MEvent α) → Chan α
  | [] => c
  | e :: es => mRun (mStep c e).2 es

/-- Run an event trace, returning the outcomes observed, in order. -/
def mOuts (c : Chan α) : List (MEvent α) → List (MOut α)
  | [] => []
  | e :: es => (mStep c e).1 :: mOuts (mStep c e).2 es

/-- Number of successful receives among the observed outcomes. -/
def countRecvOk : List (MOut α) → Nat
  | [] => 0
  | MOut.recvOk _ :: rest => countRecvOk rest + 1
  | _ :: rest => countRecvOk rest

end Mpsc

/-- Claim C3: `QueueTail::enqueue(item)` hands the identical item back iff
the consumer has disconnected (the tail cursor is null, `connected = false`):
otherwise it returns `None` and appends the item; `mpsc::Sender::send(item)`
returns `Err(SendError(item))` iff the tail is null, `Ok(())` otherwise; and
dropping the receiver (`QueueHead::drop`) is what nulls the tail cursor. -/
theorem claim_C3_enqueue_send_disconnection (α : Type) (q : Queue.QState α)
    (item : α) (items : List α) (c : Mpsc.Chan α) :
    ((Queue.enqueue q item).1 = some item ↔ q.connected = false) ∧
    (Queue.enqueue { connected := true, items := items } item =
      (none, { connected := true, items := items ++ [item] })) ∧
    ((Mpsc.send c item).1 = Except.error ⟨item⟩ ↔ c.queue.connected = false) ∧
    ((Mpsc.send c item).1 = Except.ok () ↔ c.queue.connected = true) ∧
    (Queue.headDrop q).connected = false := by
  rcases q with ⟨conn, its⟩
  rcases c with ⟨⟨cconn, cits⟩, t, l⟩
  cases conn <;> cases cconn <;>
    simp [Queue.enqueue, Mpsc.send, Queue.headDrop]

/-- Claim C4: `mpsc::Receiver::try_recv` returns `Ok(item)` when the
dequeue yields an item (and `fetch_sub`s `queue_len`); on an empty dequeue
it returns `Empty` when the tail cursor's shared reference count
(`tails + 1`, senders plus the receiver) is greater than 1, and
`Disconnected` when that count equals 1 (no live sender). -/
theorem claim_C4_mpsc_try_recv_cases (α : Type) (conn : Bool) (v : α)
    (rest : List α) (tails len : Nat) :
    Mpsc.tryRecv { queue := { connected := conn, items := v :: rest }
                   tails := tails, queueLen := len } =
      (Except.ok v, { queue := { connected := conn, items := rest }
                      tails := tails, queueLen := Mpsc.fetchSub1 len }) ∧
    Mpsc.tryRecv { queue := { connected := conn, items := ([] : List α) }
                   tails := tails + 1, queueLen := len } =
      (Except.error TryRecvError.Empty,
        { queue := { connected := conn, items := [] }
          tails := tails + 1, queueLen := len }) ∧
    Mpsc.tryRecv { queue := { connected := conn, items := ([] : List α) }
                   tails := 0, queueLen := len } =
      (Except.error TryRecvError.Disconnected,
        { queue := { connected := conn, items := [] }
          tails := 0, queueLen := len }) ∧
    Mpsc.strongCount { queue := { connected := conn, items := ([] : List α) }
                       tails := tails + 1, queueLen := len } > 1 ∧
    Mpsc.strongCount { queue := { connected := conn, items := ([] : List α) }
                       tails := 0, queueLen := len } = 1 := by
  have h : (1 : Nat) < tails + 1 + 1 := by omega
  refine ⟨rfl, ?_, rfl, ?_, rfl⟩
  · simp [Mpsc.tryRecv, Queue.dequeue, Mpsc.is_tail_alive, Mpsc.strongCount, h]
  · simp [Mpsc.strongCount]

/-- Helper for C7: from any queue state, the successfully dequeued items of
a trace form a prefix of the current buffer followed by the items the trace
gets the queue to accept. -/
theorem deqGot_prefix_enqAccepted (es : List (Queue.QEvent α)) :
    ∀ q : Queue.QState α, Queue.deqGot q es <+: q.items ++ Queue.enqAccepted q es := by
  induction es with
  | nil =>
    intro q
    simp [Queue.deqGot, Queue.enqAccepted]
  | cons e es ih =>
    intro q
    cases e with
    | enq v =>
      rcases q with ⟨conn, items⟩
      cases conn
      · simpa [Queue.deqGot, Queue.enqAccepted, Queue.enqueue] using
          ih { connected := false, items := items }
      · have h := ih { connected := true, items := items ++ [v] }
        simp only [Queue.deqGot, Queue.enqAccepted, Queue.enqueue] at h ⊢
        simpa [List.append_assoc] using h
    | deq =>
      rcases q with ⟨conn, items⟩
      cases items with
      | nil =>
        simpa [Queue.deqGot, Queue.enqAccepted, Queue.dequeue] using
          ih { connected := conn, items := [] }
      | cons x rest =>
        have h := ih { connected := conn, items := rest }
        simp only [Queue.deqGot, Queue.enqAccepted, Queue.dequeue] at h ⊢
        simpa [List.cons_prefix_cons] using h

/-- Claim C7: for every trace of enqueues and dequeues on a fresh FIFO
queue, the sequence of successfully dequeued items is a prefix of the
sequence of items the queue accepted from the producer, so any two items
enqueued by the single producer and both dequeued come out in their
enqueue order. -/
theorem claim_C7_per_producer_fifo (α : Type) (es : List (Queue.QEvent α)) :
    Queue.deqGot (Queue.fifo α) es <+: Queue.enqAccepted (Queue.fifo α) es := by
  simpa [Queue.fifo] using deqGot_prefix_enqAccepted es (Queue.fifo α)

/-- Helper: `fetch_add(1)` then `fetch_sub(1)` on a counter below
`usizeSize` is an exact rollback. -/
theorem fetchSub1_after_add (len : Nat) (h : len < Mpsc.usizeSize) :
    Mpsc.fetchSub1 ((len + 1) % Mpsc.usizeSize) = len := by
  simp only [Mpsc.fetchSub1, Mpsc.usizeSize] at *
  norm_num at *
  omega

/-- Claim C5: `SyncSender::try_send(item)` first observes the prior
`queue_len` value `len` while incrementing it; if `len >= bound` it rolls
the counter back and returns `Full(item)` with the identical item and the
channel unchanged; if the underlying send reports the receiver disconnected
(tail cursor null) it rolls back and returns `Disconnected(item)`;
otherwise it returns `Ok(())` with the item appended and `queue_len` net
incremented by 1. -/
theorem claim_C5_try_send_semantics (α : Type) (cap : Nat) (c : Mpsc.Chan α)
    (item : α) (hlen : c.queueLen < Mpsc.usizeSize) :
    (cap ≤ c.queueLen →
      Mpsc.trySend cap c item = (Except.error (TrySendError.Full item), c)) ∧
    (c.queueLen < cap → c.queue.connected = false →
      Mpsc.trySend cap c item =
        (Except.error (TrySendError.Disconnected item), c)) ∧
    (c.queueLen < cap → c.queue.connected = true → c.queueLen + 1 < Mpsc.usizeSize →
      Mpsc.trySend cap c item =
        (Except.ok (), { c with
          queue := { c.queue with items := c.queue.items ++ [item] }
          queueLen := c.queueLen + 1 })) := by
  rcases c with ⟨⟨conn, its⟩, t, l⟩
  simp only at hlen ⊢
  refine ⟨?_, ?_, ?_⟩
  · intro h
    simp only [Mpsc.trySend]
    rw [if_pos h]
    simp [fetchSub1_after_add l hlen]
  · intro hlt hconn
    subst hconn
    simp only [Mpsc.trySend]
    rw [if_neg (by omega : ¬ l ≥ cap)]
    simp [Mpsc.send, Queue.enqueue, fetchSub1_after_add l hlen]
  · intro hlt hconn hsucc
    subst hconn
    simp only [Mpsc.trySend]
    rw [if_neg (by omega : ¬ l ≥ cap)]
    simp [Mpsc.send, Queue.enqueue, Nat.mod_eq_of_lt hsucc]

/-- Witness for C5 at a bounded channel of capacity 1. -/
theorem claim_C5_try_send_semantics_witness :
    Mpsc.trySend 1 (Mpsc.channel Nat) 9 =
      (Except.ok (), { queue := { connected := true, items := [9] }
                       tails := 1, queueLen := 1 }) :=
  (claim_C5_try_send_semantics Nat 1 (Mpsc.channel Nat) 9
    (by decide)).2.2 (by decide) rfl (by decide)

/-- Claim C9: the fullness check precedes the disconnection check: whenever
the shared `queue_len` counter is at or above the capacity, `try_send`
answers `Full(item)` no matter the state of the receiver; in particular a
`sync_channel(0)` sender always gets `Full` and never `Disconnected` from
`try_send`. -/
theorem claim_C9_full_precedes_disconnected (α : Type) (cap : Nat)
    (c c0 : Mpsc.Chan α) (item item0 : α) (h : cap ≤ c.queueLen) :
    (Mpsc.trySend cap c item).1 = Except.error (TrySendError.Full item) ∧
    (Mpsc.trySend 0 c0 item0).1 = Except.error (TrySendError.Full item0) := by
  constructor
  · simp only [Mpsc.trySend]
    rw [if_pos h]
  · simp [Mpsc.trySend]

/-- Witness for C9: capacity 1 channel with the counter at 5, and a
capacity 0 channel with the receiver still alive. -/
theorem claim_C9_full_precedes_disconnected_witness :
    (Mpsc.trySend 1 ({ queue := { connected := false, items := [] }
                       tails := 1, queueLen := 5 } : Mpsc.Chan Nat) 2).1 =
        Except.error (TrySendError.Full 2) ∧
    (Mpsc.trySend 0 (Mpsc.channel Nat) 3).1 = Except.error (TrySendError.Full 3) :=
  claim_C9_full_precedes_disconnected Nat 1
    { queue := { connected := false, items := [] }, tails := 1, queueLen := 5 }
    (Mpsc.channel Nat) 2 3 (by decide)

/-- Helper for C8: a `try_recv` answering `Disconnected` leaves the
receiver's pointer zeroed. -/
theorem oneshot_tryRecv_disconnected_rxPtr {s s' : Oneshot.OState α}
    (h : Oneshot.tryRecv s = some (Except.error TryRecvError.Disconnected, s')) :
    s'.rxPtr = false := by
  rcases s with ⟨cell, tx, rx, tf, rf⟩
  cases rx
  · simp [Oneshot.tryRecv] at h
    cases h
    rfl
  · match cell with
    | none => simp [Oneshot.tryRecv] at h
    | some Oneshot.OCell.empty => simp [Oneshot.tryRecv] at h
    | some Oneshot.OCell.dropped =>
      simp [Oneshot.tryRecv] at h
      cases h
      rfl
    | some (Oneshot.OCell.full v) => simp [Oneshot.tryRecv] at h

/-- Helper for C8: no oneshot event revives a zeroed receiver pointer. -/
theorem oneshot_step_preserves_rxPtr_false {s s' : Oneshot.OState α}
    (e : Oneshot.OEvent α) (h : Oneshot.step s e = some s')
    (hrx : s.rxPtr = false) : s'.rxPtr = false := by
  rcases s with ⟨cell, tx, rx, tf, rf⟩
  cases hrx
  cases e with
  | send v =>
    cases tx
    · simp [Oneshot.step, Oneshot.send] at h
    · match cell with
      | none => simp [Oneshot.step, Oneshot.send] at h
      | some Oneshot.OCell.empty =>
        simp [Oneshot.step, Oneshot.send] at h
        cases h
        rfl
      | some Oneshot.OCell.dropped =>
        simp [Oneshot.step, Oneshot.send] at h
        cases h
        rfl
      | some (Oneshot.OCell.full w) =>
        simp [Oneshot.step, Oneshot.send] at h
        cases h
        rfl
  | tryRecv =>
    simp [Oneshot.step, Oneshot.tryRecv] at h
    cases h
    rfl
  | senderDrop =>
    cases tx
    · simp [Oneshot.step, Oneshot.senderDrop] at h
      cases h
      rfl
    · match cell with
      | none => simp [Oneshot.step, Oneshot.senderDrop] at h
      | some Oneshot.OCell.empty =>
        simp [Oneshot.step, Oneshot.senderDrop] at h
        cases h
        rfl
      | some Oneshot.OCell.dropped =>
        simp [Oneshot.step, Oneshot.senderDrop] at h
        cases h
        rfl
      | some (Oneshot.OCell.full w) =>
        simp [Oneshot.step, Oneshot.senderDrop] at h
        cases h
        rfl
  | receiverDrop =>
    simp [Oneshot.step, Oneshot.receiverDrop] at h
    cases h
    rfl

/-- Helper for C8: running any event trace keeps the receiver pointer
zeroed. -/
theorem oneshot_run_preserves_rxPtr_false (tr : List (Oneshot.OEvent α)) :
    ∀ {s s' : Oneshot.OState α}, Oneshot.run s tr = some s' →
      s.rxPtr = false → s'.rxPtr = false := by
  induction tr with
  | nil =>
    intro s s' h hrx
    simp [Oneshot.run] at h
    cases h
    exact hrx
  | cons e es ih =>
    intro s s' h hrx
    simp only [Oneshot.run] at h
    match hstep : Oneshot.step s e with
    | none => rw [hstep] at h; exact absurd h (by simp)
    | some s1 =>
      rw [hstep] at h
      exact ih h (oneshot_step_preserves_rxPtr_false e hstep hrx)

/-- Helper for C8: an MPSC `try_recv` answering `Disconnected` means the
queue was empty and no sender handle is left, and the state is unchanged. -/
theorem mpsc_tryRecv_disconnected_state {c c' : Mpsc.Chan α}
    (h : Mpsc.tryRecv c = (Except.error TryRecvError.Disconnected, c')) :
    c' = c ∧ c.queue.items = [] ∧ c.tails = 0 := by
  rcases c with ⟨⟨conn, items⟩, t, l⟩
  cases items with
  | cons x rest => simp [Mpsc.tryRecv, Queue.dequeue] at h
  | nil =>
    cases t with
    | succ t' =>
      simp [Mpsc.tryRecv, Queue.dequeue, Mpsc.is_tail_alive, Mpsc.strongCount,
        Nat.one_lt_succ_succ] at h
    | zero =>
      simp [Mpsc.tryRecv, Queue.dequeue, Mpsc.is_tail_alive, Mpsc.strongCount] at h
      exact ⟨h.symm, rfl, rfl⟩

/-- Helper for C8: with no live sender and an empty queue, `try_recv`
answers `Disconnected` and changes nothing. -/
theorem mpsc_tryRecv_of_dead {c : Mpsc.Chan α} (ht : c.tails = 0)
    (hi : c.queue.items = []) :
    Mpsc.tryRecv c = (Except.error TryRecvError.Disconnected, c) := by
  rcases c with ⟨⟨conn, items⟩, t, l⟩
  cases ht
  cases hi
  simp [Mpsc.tryRecv, Queue.dequeue, Mpsc.is_tail_alive, Mpsc.strongCount]

/-- Helper for C8: once no sender handle is left and the queue is empty,
every later event keeps it so (sender events cannot occur without a live
sender handle and are `skip`s). -/
theorem mpsc_mStep_preserves_dead {c : Mpsc.Chan α} (e : Mpsc.MEvent α)
    (ht : c.tails = 0) (hi : c.queue.items = []) :
    (Mpsc.mStep c e).2.tails = 0 ∧ (Mpsc.mStep c e).2.queue.items = [] := by
  rcases c with ⟨⟨conn, items⟩, t, l⟩
  cases ht
  cases hi
  cases e <;>
    simp [Mpsc.mStep, Mpsc.tryRecv, Queue.dequeue, Mpsc.is_tail_alive,
      Mpsc.strongCount]

/-- Helper for C8: trace version of `mpsc_mStep_preserves_dead`. -/
theorem mpsc_mRun_preserves_dead (tr : List (Mpsc.MEvent α)) :
    ∀ {c : Mpsc.Chan α}, c.tails = 0 → c.queue.items = [] →
      (Mpsc.mRun c tr).tails = 0 ∧ (Mpsc.mRun c tr).queue.items = [] := by
  induction tr with
  | nil => intro c ht hi; exact ⟨ht, hi⟩
  | cons e es ih =>
    intro c ht hi
    obtain ⟨ht', hi'⟩ := mpsc_mStep_preserves_dead e ht hi
    exact ih ht' hi'

/-- Claim C8: disconnection is absorbing for both receivers.  Oneshot: once
`try_recv` answered `Disconnected`, the receiver pointer is zeroed, no later
event revives it, and every later `try_recv` answers `Disconnected`.  MPSC:
a `Disconnected` answer means empty queue and no live sender; no later event
(sender events need a live sender handle) changes that, so every later
`try_recv` answers `Disconnected`. -/
theorem claim_C8_disconnected_absorbing (α : Type) :
    (∀ (s s' : Oneshot.OState α),
      Oneshot.tryRecv s = some (Except.error TryRecvError.Disconnected, s') →
      ∀ (tr : List (Oneshot.OEvent α)) (s'' : Oneshot.OState α),
        Oneshot.run s' tr = some s'' →
        Oneshot.tryRecv s'' = some (Except.error TryRecvError.Disconnected, s'')) ∧
    (∀ (c c' : Mpsc.Chan α),
      Mpsc.tryRecv c = (Except.error TryRecvError.Disconnected, c') →
      ∀ (tr : List (Mpsc.MEvent α)),
        Mpsc.tryRecv (Mpsc.mRun c' tr) =
          (Except.error TryRecvError.Disconnected, Mpsc.mRun c' tr)) := by
  constructor
  · intro s s' h tr s'' hrun
    have h1 : s'.rxPtr = false := oneshot_tryRecv_disconnected_rxPtr h
    have h2 : s''.rxPtr = false := oneshot_run_preserves_rxPtr_false tr hrun h1
    exact Oneshot.tryRecv_of_not_rxPtr s'' h2
  · intro c c' h tr
    obtain ⟨hc, hi, ht⟩ := mpsc_tryRecv_disconnected_state h
    subst hc
    obtain ⟨ht', hi'⟩ := mpsc_mRun_preserves_dead tr ht hi
    exact mpsc_tryRecv_of_dead ht' hi'

/-- Witness for C8: a oneshot receiver that saw the sender's drop marker,
and an MPSC channel whose last sender is gone. -/
theorem claim_C8_disconnected_absorbing_witness :
    Oneshot.tryRecv ({ cell := none, txPtr := true, rxPtr := false,
                       txFrees := 0, rxFrees := 1 } : Oneshot.OState Nat) =
      some (Except.error TryRecvError.Disconnected,
        { cell := none, txPtr := true, rxPtr := false, txFrees := 0, rxFrees := 1 }) ∧
    Mpsc.tryRecv (Mpsc.mRun ({ queue := { connected := true, items := [] },
                               tails := 0, queueLen := 0 } : Mpsc.Chan Nat) []) =
      (Except.error TryRecvError.Disconnected,
        Mpsc.mRun ({ queue := { connected := true, items := [] },
                     tails := 0, queueLen := 0 } : Mpsc.Chan Nat) []) :=
  ⟨(claim_C8_disconnected_absorbing Nat).1
      { cell := some Oneshot.OCell.dropped, txPtr := true, rxPtr := true,
        txFrees := 0, rxFrees := 0 }
      { cell := none, txPtr := true, rxPtr := false, txFrees := 0, rxFrees := 1 }
      rfl []
      { cell := none, txPtr := true, rxPtr := false, txFrees := 0, rxFrees := 1 }
      rfl,
   (claim_C8_disconnected_absorbing Nat).2
      { queue := { connected := true, items := [] }, tails := 0, queueLen := 0 }
      { queue := { connected := true, items := [] }, tails := 0, queueLen := 0 }
      rfl []⟩

/-- Helper for C10: one wrapping `fetch_sub(1)` step on the counter value
reached after `k` successful receives. -/
theorem fetchSub1_counter (k : Nat) :
    Mpsc.fetchSub1 ((Mpsc.usizeSize - k % Mpsc.usizeSize) % Mpsc.usizeSize) =
      (Mpsc.usizeSize - (k + 1) % Mpsc.usizeSize) % Mpsc.usizeSize := by
  simp only [Mpsc.fetchSub1, Mpsc.usizeSize]
  norm_num
  omega

/-- Helper for C10: along any unbounded-channel trace, the shared
`queue_len` counter always holds `0 - k` modulo `2^64`, where `k` counts
the successful receives so far. -/
theorem mRun_queueLen_counter (tr : List (Mpsc.MEvent α)) :
    ∀ (c : Mpsc.Chan α) (k : Nat),
      c.queueLen = (Mpsc.usizeSize - k % Mpsc.usizeSize) % Mpsc.usizeSize →
      (Mpsc.mRun c tr).queueLen =
        (Mpsc.usizeSize -
          (k + Mpsc.countRecvOk (Mpsc.mOuts c tr)) % Mpsc.usizeSize) % Mpsc.usizeSize := by
  induction tr with
  | nil =>
    intro c k h
    simpa [Mpsc.mRun, Mpsc.mOuts, Mpsc.countRecvOk] using h
  | cons e es ih =>
    intro c k h
    rcases c with ⟨⟨conn, items⟩, t, l⟩
    have hl : l = (Mpsc.usizeSize - k % Mpsc.usizeSize) % Mpsc.usizeSize := h
    simp only [Mpsc.mRun, Mpsc.mOuts]
    cases e with
    | send v =>
      cases t with
      | zero =>
        simpa [Mpsc.mStep, Mpsc.countRecvOk] using
          ih ⟨⟨conn, items⟩, 0, l⟩ k hl
      | succ t' =>
        cases conn
        · simpa [Mpsc.mStep, Mpsc.send, Queue.enqueue, Mpsc.countRecvOk] using
            ih ⟨⟨false, items⟩, t' + 1, l⟩ k hl
        · simpa [Mpsc.mStep, Mpsc.send, Queue.enqueue, Mpsc.countRecvOk] using
            ih ⟨⟨true, items ++ [v]⟩, t' + 1, l⟩ k hl
    | cloneSender =>
      cases t with
      | zero =>
        simpa [Mpsc.mStep, Mpsc.countRecvOk] using
          ih ⟨⟨conn, items⟩, 0, l⟩ k hl
      | succ t' =>
        simpa [Mpsc.mStep, Mpsc.countRecvOk] using
          ih ⟨⟨conn, items⟩, t' + 1 + 1, l⟩ k hl
    | dropSender =>
      cases t with
      | zero =>
        simpa [Mpsc.mStep, Mpsc.countRecvOk] using
          ih ⟨⟨conn, items⟩, 0, l⟩ k hl
      | succ t' =>
        simpa [Mpsc.mStep, Mpsc.countRecvOk] using
          ih ⟨⟨conn, items⟩, t', l⟩ k hl
    | tryRecv =>
      cases items with
      | nil =>
        cases t with
        | zero =>
          simpa [Mpsc.mStep, Mpsc.tryRecv, Queue.dequeue, Mpsc.is_tail_alive,
            Mpsc.strongCount, Mpsc.countRecvOk] using
            ih ⟨⟨conn, []⟩, 0, l⟩ k hl
        | succ t' =>
          simpa [Mpsc.mStep, Mpsc.tryRecv, Queue.dequeue, Mpsc.is_tail_alive,
            Mpsc.strongCount, Nat.one_lt_succ_succ, Mpsc.countRecvOk] using
            ih ⟨⟨conn, []⟩, t' + 1, l⟩ k hl
      | cons x rest =>
        have h' : Mpsc.fetchSub1 l =
            (Mpsc.usizeSize - (k + 1) % Mpsc.usizeSize) % Mpsc.usizeSize := by
          rw [hl]
          exact fetchSub1_counter k
        have hrec := ih ⟨⟨conn, rest⟩, t, Mpsc.fetchSub1 l⟩ (k + 1) h'
        have hk : ∀ m : Nat, k + (m + 1) = k + 1 + m := by intro m; omega
        simp only [Mpsc.mStep, Mpsc.tryRecv, Queue.dequeue, Mpsc.countRecvOk]
        rw [hk]
        exact hrec

/-- Helper for C10: the visible result and the queue/tails part of the next
state of every unbounded operation are independent of `queue_len`. -/
theorem mStep_queueLen_independent (e : Mpsc.MEvent α) (q : Queue.QState α)
    (t l1 l2 : Nat) :
    (Mpsc.mStep ⟨q, t, l1⟩ e).1 = (Mpsc.mStep ⟨q, t, l2⟩ e).1 ∧
    (Mpsc.mStep ⟨q, t, l1⟩ e).2.queue = (Mpsc.mStep ⟨q, t, l2⟩ e).2.queue ∧
    (Mpsc.mStep ⟨q, t, l1⟩ e).2.tails = (Mpsc.mStep ⟨q, t, l2⟩ e).2.tails := by
  rcases q with ⟨conn, items⟩
  cases e <;> cases conn <;> cases items <;> cases t <;>
    simp [Mpsc.mStep, Mpsc.send, Mpsc.tryRecv, Queue.enqueue, Queue.dequeue,
      Mpsc.is_tail_alive, Mpsc.strongCount, Nat.one_lt_succ_succ]

/-- Helper for C10: the whole observable outcome list of a trace is
independent of the initial `queue_len` value. -/
theorem mOuts_queueLen_independent (tr : List (Mpsc.MEvent α)) :
    ∀ (q : Queue.QState α) (t l1 l2 : Nat),
      Mpsc.mOuts ⟨q, t, l1⟩ tr = Mpsc.mOuts ⟨q, t, l2⟩ tr := by
  induction tr with
  | nil => intro q t l1 l2; rfl
  | cons e es ih =>
    intro q t l1 l2
    obtain ⟨h1, h2, h3⟩ := mStep_queueLen_independent e q t l1 l2
    simp only [Mpsc.mOuts]
    rcases hs1 : (Mpsc.mStep ⟨q, t, l1⟩ e).2 with ⟨q1, t1, m1⟩
    rcases hs2 : (Mpsc.mStep ⟨q, t, l2⟩ e).2 with ⟨q2, t2, m2⟩
    rw [hs1, hs2] at h2 h3
    simp only at h2 h3
    subst h2
    subst h3
    rw [h1, ih q1 t1 m1 m2]

/-- Claim C10: on the unbounded channel, `Sender::send` never touches the
shared `queue_len` counter, while every successful `Receiver::try_recv`
wrapping-subtracts 1 from it, so after `k` successful receives from a fresh
`channel()` the counter holds `0 - k` modulo `2^64` (it wraps below zero on
the first receive); and the underflowed value is not observable through any
public operation of the unbounded channel (all outcomes are independent of
the counter's value). -/
theorem claim_C10_queue_len_underflow (α : Type) :
    (∀ (c : Mpsc.Chan α) (v : α), ((Mpsc.send c v).2).queueLen = c.queueLen) ∧
    (∀ tr : List (Mpsc.MEvent α),
      (Mpsc.mRun (Mpsc.channel α) tr).queueLen =
        (Mpsc.usizeSize -
          Mpsc.countRecvOk (Mpsc.mOuts (Mpsc.channel α) tr) % Mpsc.usizeSize) %
          Mpsc.usizeSize) ∧
    (∀ (tr : List (Mpsc.MEvent α)) (len1 len2 : Nat),
      Mpsc.mOuts ⟨Queue.fifo α, 1, len1⟩ tr = Mpsc.mOuts ⟨Queue.fifo α, 1, len2⟩ tr) := by
  refine ⟨?_, ?_, ?_⟩
  · intro c v
    rcases c with ⟨⟨conn, items⟩, t, l⟩
    cases conn <;> simp [Mpsc.send, Queue.enqueue]
  · intro tr
    have h0 : (Mpsc.channel α).queueLen =
        (Mpsc.usizeSize - 0 % Mpsc.usizeSize) % Mpsc.usizeSize := by
      simp [Mpsc.channel]
    simpa using mRun_queueLen_counter tr (Mpsc.channel α) 0 h0
  · intro tr len1 len2
    exact mOuts_queueLen_independent tr (Queue.fifo α) 1 len1 len2

end Nbchan
